import Mathlib

/-!
Shallow embedding of the xDS resource-decoding core of this repository:
the cluster resource type (Decode / Equal / watcher delegation) from
xds/internal/xdsclient/xdsresource/cluster_resource_type.go, and the
EDS response parser (parseEDSRespProto, parseDropPolicy, parseEndpoints,
parseAddress) from xds/internal/balancer/clusterresolver/testutil_test.go.

Go pointers are modelled as Option; protobuf getters return the zero
value on none, exactly as Go protobuf getters do on nil. Machine
integers (uint32) are modelled as Nat: none of the embedded code
performs arithmetic that can overflow (no addition or multiplication on
wire integers), so no modular reduction is needed.
-/

namespace GrpcXds

/-! ## Wire protobuf messages used by the EDS parser

These mirror the fields of the go-control-plane proto messages that the
source actually reads through getters. Pointer-valued fields are Option.
-/

/-- Wire message `envoy.api.v2.core.SocketAddress`: the fields read by
`parseAddress` (`GetAddress`, `GetPortValue`). -/
structure SocketAddress where
  Address : String
  PortValue : Nat
deriving DecidableEq, Repr

/-- Wire message `envoy.api.v2.core.Address`: oneof address, of which the
source only ever reads the socket-address arm (`GetSocketAddress`). -/
structure CoreAddress where
  SocketAddr : Option SocketAddress
deriving DecidableEq, Repr

/-- Wire message `envoy.api.v2.endpoint.Endpoint`: the `Address` field read
via `GetAddress`. -/
structure EndpointProto where
  Address : Option CoreAddress
deriving DecidableEq, Repr

/-- Wire message `envoy.api.v2.endpoint.LbEndpoint`: the fields read by
`parseEndpoints` (`GetHealthStatus`, `GetEndpoint`,
`GetLoadBalancingWeight().GetValue()`). The health status is the wire enum
value; the load-balancing weight is a nullable wrapper, hence Option. -/
structure LbEndpoint where
  HealthStatus : Nat
  Endpoint : Option EndpointProto
  LoadBalancingWeight : Option Nat
deriving DecidableEq, Repr

/-- Wire message `envoy.api.v2.core.Locality`: region / zone / sub-zone. -/
structure ProtoLocality where
  Region : String
  Zone : String
  SubZone : String
deriving DecidableEq, Repr

/-- Wire message `envoy.api.v2.endpoint.LocalityLbEndpoints`: the fields
read by the locality loop of `parseEDSRespProto`. -/
structure LocalityEndpoints where
  Locality : Option ProtoLocality
  LbEndpoints : List LbEndpoint
  LoadBalancingWeight : Option Nat
  Priority : Nat
deriving DecidableEq, Repr

/-- Wire message `envoy.type.FractionalPercent`: numerator plus a
denominator unit tag. Proto3 enums are open, so the tag is modelled as the
raw wire value (Nat); the named constants follow. -/
structure FractionalPercent where
  Numerator : Nat
  Denominator : Nat
deriving DecidableEq, Repr

/-- Wire enum value `envoy.type.FractionalPercent_HUNDRED`. -/
def FractionalPercent_HUNDRED : Nat := 0

/-- Wire enum value `envoy.type.FractionalPercent_TEN_THOUSAND`. -/
def FractionalPercent_TEN_THOUSAND : Nat := 1

/-- Wire enum value `envoy.type.FractionalPercent_MILLION`. -/
def FractionalPercent_MILLION : Nat := 2

/-- Wire message `ClusterLoadAssignment_Policy_DropOverload`: a category
and a nullable drop percentage. -/
structure DropOverload where
  Category : String
  DropPercentage : Option FractionalPercent
deriving DecidableEq, Repr

/-- Wire message `ClusterLoadAssignment_Policy`: the drop-overload list. -/
structure CLAPolicy where
  DropOverloads : List DropOverload
deriving DecidableEq, Repr

/-- Wire message `envoy.api.v2.ClusterLoadAssignment`: nullable policy and
the per-locality endpoint list. -/
structure ClusterLoadAssignment where
  Policy : Option CLAPolicy
  Endpoints : List LocalityEndpoints
deriving DecidableEq, Repr

/-! ### Protobuf getters (nil-safe, returning zero values on none) -/

/-- Getter chain `lbEndpoint.GetEndpoint().GetAddress().GetSocketAddress()`:
each step returns nil when the receiver is nil. -/
def LbEndpoint.getSocketAddress (lb : LbEndpoint) : Option SocketAddress :=
  (lb.Endpoint.bind (fun e => e.Address)).bind (fun a => a.SocketAddr)

/-- Getter `socketAddress.GetAddress()`: empty string on nil. -/
def getAddress : Option SocketAddress → String
  | none => ""
  | some sa => sa.Address

/-- Getter `socketAddress.GetPortValue()`: zero on nil. -/
def getPortValue : Option SocketAddress → Nat
  | none => 0
  | some sa => sa.PortValue

/-- Getter `percentage.GetNumerator()`: zero on nil. -/
def getNumerator : Option FractionalPercent → Nat
  | none => 0
  | some p => p.Numerator

/-- Getter `percentage.GetDenominator()`: the zero enum value (HUNDRED) on
nil. -/
def getDenominator : Option FractionalPercent → Nat
  | none => 0
  | some p => p.Denominator

/-- Getter chain `m.GetPolicy().GetDropOverloads()`: empty list on nil. -/
def ClusterLoadAssignment.getDropOverloads (m : ClusterLoadAssignment) : List DropOverload :=
  match m.Policy with
  | none => []
  | some p => p.DropOverloads

/-! ## Result data model (package xdsresource / internal) -/

/-- Result type `xdsresource.OverloadDropConfig`. -/
structure OverloadDropConfig where
  Category : String
  Numerator : Nat
  Denominator : Nat
deriving DecidableEq, Repr

/-- Result type `internal.LocalityID`. -/
structure LocalityID where
  Region : String
  Zone : String
  SubZone : String
deriving DecidableEq, Repr

/-- Result type `xdsresource.Endpoint`. The health status is
`xdsresource.EndpointHealthStatus`, a direct integral cast of the wire
enum value. -/
structure Endpoint where
  Address : String
  HealthStatus : Nat
  Weight : Nat
deriving DecidableEq, Repr

/-- Result type `xdsresource.Locality`. -/
structure Locality where
  ID : LocalityID
  Endpoints : List Endpoint
  Weight : Nat
  Priority : Nat
deriving DecidableEq, Repr

/-- Result type `xdsresource.EndpointsUpdate`. -/
structure EndpointsUpdate where
  Drops : List OverloadDropConfig
  Localities : List Locality
deriving DecidableEq, Repr

/-- The zero value `xdsresource.EndpointsUpdate\x7b\x7d` returned by every
failure path of `parseEDSRespProto`. -/
def EndpointsUpdate.zero : EndpointsUpdate := ⟨[], []⟩

/-- Errors produced by `parseEDSRespProto`, carrying exactly the data the
Go `fmt.Errorf` messages interpolate: the full offending locality, or the
missing priority together with the observed priority set. -/
inductive ParseErr where
  | localityWithoutID (locality : LocalityEndpoints)
  | priorityMissing (missing : Nat) (observed : List Nat)
deriving DecidableEq, Repr

/-! ## The EDS parsing functions -/

/-- Model of `net.JoinHostPort`: brackets the host when it contains a
colon or percent sign, then joins with a colon. -/
def joinHostPort (host port : String) : String :=
  if host.contains ':' || host.contains '%' then
    "[" ++ host ++ "]" ++ ":" ++ port
  else
    host ++ ":" ++ port

/-- Source function `parseAddress`: formats the socket address as
host:port, the port printed in decimal (`strconv.Itoa`). -/
def parseAddress (socketAddress : Option SocketAddress) : String :=
  joinHostPort (getAddress socketAddress) (toString (getPortValue socketAddress))

/-- Source function `parseDropPolicy`: copies category and numerator and
maps the denominator unit tag through the switch; the Go `denominator`
variable starts at zero and no default case exists, so unrecognized tags
leave it zero. -/
def parseDropPolicy (dropPolicy : DropOverload) : OverloadDropConfig :=
  let percentage := dropPolicy.DropPercentage
  let numerator := getNumerator percentage
  let denominator : Nat :=
    if getDenominator percentage = FractionalPercent_HUNDRED then 100
    else if getDenominator percentage = FractionalPercent_TEN_THOUSAND then 10000
    else if getDenominator percentage = FractionalPercent_MILLION then 1000000
    else 0
  ⟨dropPolicy.Category, numerator, denominator⟩

/-- Source function `parseEndpoints`: one `Endpoint` per `LbEndpoint`, in
source order, carrying the cast health status, the formatted address and
the unwrapped load-balancing weight. -/
def parseEndpoints : List LbEndpoint → List Endpoint
  | [] => []
  | lbEndpoint :: rest =>
    ⟨parseAddress lbEndpoint.getSocketAddress,
     lbEndpoint.HealthStatus,
     lbEndpoint.LoadBalancingWeight.getD 0⟩ :: parseEndpoints rest

/-- Model of the Go set insert `priorities[priority] = struct\x7b\x7d\x7b\x7d`:
a duplicate-free list in first-insertion order. -/
def insertPriority (priorities : List Nat) (p : Nat) : List Nat :=
  if p ∈ priorities then priorities else priorities ++ [p]

/-- The locality loop of `parseEDSRespProto`: walks the localities in
source order, aborting at the first locality whose `GetLocality()` is nil,
otherwise accumulating the built `Locality` values and the observed
priority set. -/
def parseLocalities : List LocalityEndpoints → List Locality → List Nat →
    Except ParseErr (List Locality × List Nat)
  | [], acc, priorities => Except.ok (acc, priorities)
  | locality :: rest, acc, priorities =>
    match locality.Locality with
    | none => Except.error (ParseErr.localityWithoutID locality)
    | some l =>
      let lid : LocalityID := ⟨l.Region, l.Zone, l.SubZone⟩
      let priority := locality.Priority
      parseLocalities rest
        (acc ++ [⟨lid, parseEndpoints locality.LbEndpoints,
                  locality.LoadBalancingWeight.getD 0, priority⟩])
        (insertPriority priorities priority)

/-- The contiguity check loop of `parseEDSRespProto`: for i from 0 below
the number of distinct priorities, report the first i absent from the
observed set. -/
def firstMissingPriority (priorities : List Nat) : Option Nat :=
  (List.range priorities.length).find? (fun i => decide (i ∉ priorities))

/-- Source function `parseEDSRespProto`: drops are parsed first in source
order; the locality loop may abort; then the priority contiguity check
runs; every failure returns the zero `EndpointsUpdate` together with the
error. -/
def parseEDSRespProto (m : ClusterLoadAssignment) : EndpointsUpdate × Option ParseErr :=
  let drops := m.getDropOverloads.map parseDropPolicy
  match parseLocalities m.Endpoints [] [] with
  | Except.error e => (EndpointsUpdate.zero, some e)
  | Except.ok (localities, priorities) =>
    match firstMissingPriority priorities with
    | some i => (EndpointsUpdate.zero, some (ParseErr.priorityMissing i priorities))
    | none => (⟨drops, localities⟩, none)

/-- The `Locality` value the loop builds for one source entry (with an
arbitrary placeholder on a missing identifier, a case the loop never
reaches because it aborts first). -/
def mkLocality (locality : LocalityEndpoints) : Locality :=
  match locality.Locality with
  | some l =>
    ⟨⟨l.Region, l.Zone, l.SubZone⟩, parseEndpoints locality.LbEndpoints,
     locality.LoadBalancingWeight.getD 0, locality.Priority⟩
  | none => ⟨⟨"", "", ""⟩, [], 0, 0⟩

/-- The observed priority set of an assignment: the fold of the set insert
over the localities in source order. -/
def observedPriorities (m : ClusterLoadAssignment) : List Nat :=
  m.Endpoints.foldl (fun priorities locality => insertPriority priorities locality.Priority) []

/-! ## Helper lemmas about the EDS parser -/

/-- Membership after the set insert. -/
theorem insertPriority_mem (priorities : List Nat) (p a : Nat) :
    a ∈ insertPriority priorities p ↔ a ∈ priorities ∨ a = p := by
  unfold insertPriority
  split
  · rename_i hp
    constructor
    · exact Or.inl
    · rintro (ha | rfl)
      · exact ha
      · exact hp
  · simp

/-- The set insert keeps the observed-priority list duplicate-free. -/
theorem insertPriority_nodup (priorities : List Nat) (p : Nat)
    (h : priorities.Nodup) : (insertPriority priorities p).Nodup := by
  unfold insertPriority
  split
  · exact h
  · rename_i hp
    simp [List.nodup_append, h, hp]

/-- When every locality carries an identifier, the locality loop succeeds
and returns the built localities in source order together with the folded
observed-priority set. -/
theorem parseLocalities_ok (ls : List LocalityEndpoints) :
    ∀ (acc : List Locality) (ps : List Nat),
    (∀ le ∈ ls, le.Locality.isSome = true) →
    parseLocalities ls acc ps =
      Except.ok (acc ++ ls.map mkLocality,
        ls.foldl (fun priorities locality => insertPriority priorities locality.Priority) ps) := by
  induction ls with
  | nil =>
    intro acc ps _
    simp [parseLocalities]
  | cons le rest ih =>
    intro acc ps hids
    rcases hl : le.Locality with _ | l
    · exact absurd (hids le (by simp)) (by simp [hl])
    · simp only [parseLocalities, hl]
      rw [ih _ _ (fun le' h' => hids le' (by simp [h']))]
      simp [mkLocality, hl]

/-- The locality loop aborts at the first locality without an identifier,
reporting exactly that locality. -/
theorem parseLocalities_error (ls : List LocalityEndpoints) :
    ∀ (acc : List Locality) (ps : List Nat) (le₀ : LocalityEndpoints),
    ls.find? (fun le => le.Locality.isNone) = some le₀ →
    parseLocalities ls acc ps = Except.error (ParseErr.localityWithoutID le₀) := by
  induction ls with
  | nil =>
    intro acc ps le₀ h
    simp at h
  | cons le rest ih =>
    intro acc ps le₀ h
    rcases hl : le.Locality with _ | l
    · rw [List.find?_cons_of_pos _ (by simp [hl])] at h
      simp at h
      subst h
      simp [parseLocalities, hl]
    · rw [List.find?_cons_of_neg _ (by simp [hl])] at h
      simp only [parseLocalities, hl]
      exact ih _ _ _ h

/-- A successful locality loop run implies every locality carried an
identifier. -/
theorem parseLocalities_ok_ids (ls : List LocalityEndpoints) :
    ∀ (acc : List Locality) (ps : List Nat) (locs : List Locality) (ps' : List Nat),
    parseLocalities ls acc ps = Except.ok (locs, ps') →
    ∀ le ∈ ls, le.Locality.isSome = true := by
  induction ls with
  | nil =>
    intro acc ps locs ps' _ le hle
    simp at hle
  | cons le rest ih =>
    intro acc ps locs ps' h le' hle'
    rcases hl : le.Locality with _ | l
    · simp [parseLocalities, hl] at h
    · rcases List.mem_cons.mp hle' with rfl | hmem
      · simp [hl]
      · simp only [parseLocalities, hl] at h
        exact ih _ _ _ _ h le' hmem

/-- The observed-priority fold keeps the list duplicate-free. -/
theorem foldl_insertPriority_nodup (ls : List LocalityEndpoints) :
    ∀ ps : List Nat, ps.Nodup →
    (ls.foldl (fun priorities locality => insertPriority priorities locality.Priority) ps).Nodup := by
  induction ls with
  | nil => intro ps h; exact h
  | cons le rest ih => intro ps h; exact ih _ (insertPriority_nodup _ _ h)

/-- The observed priority set of any assignment is duplicate-free. -/
theorem observedPriorities_nodup (m : ClusterLoadAssignment) :
    (observedPriorities m).Nodup :=
  foldl_insertPriority_nodup m.Endpoints [] List.nodup_nil

/-- The contiguity check passes exactly when every index below the number
of distinct priorities is observed. -/
theorem firstMissingPriority_eq_none (ps : List Nat) :
    firstMissingPriority ps = none ↔ ∀ i < ps.length, i ∈ ps := by
  unfold firstMissingPriority
  rw [List.find?_eq_none]
  constructor
  · intro h i hi
    have := h i (List.mem_range.mpr hi)
    simpa using this
  · intro h i hi
    simpa using h i (List.mem_range.mp hi)

/-- Pigeonhole direction of contiguity: a duplicate-free list containing
every index below its length contains nothing else. -/
theorem mem_lt_length_of_contiguous (ps : List Nat) (hnd : ps.Nodup)
    (hall : ∀ i < ps.length, i ∈ ps) : ∀ p ∈ ps, p < ps.length := by
  intro p hp
  have hsub : Finset.range ps.length ⊆ ps.toFinset := by
    intro i hi
    rw [List.mem_toFinset]
    exact hall i (Finset.mem_range.mp hi)
  have hcard : ps.toFinset.card ≤ (Finset.range ps.length).card := by
    rw [Finset.card_range, List.toFinset_card_of_nodup hnd]
  have heq := Finset.eq_of_subset_of_card_le hsub hcard
  have hpr : p ∈ Finset.range ps.length := by
    rw [heq, List.mem_toFinset]
    exact hp
  exact Finset.mem_range.mp hpr

/-- Under present identifiers, the whole parse reduces to the contiguity
check over the observed priority set. -/
theorem parseEDSRespProto_of_ids (m : ClusterLoadAssignment)
    (hids : ∀ le ∈ m.Endpoints, le.Locality.isSome = true) :
    parseEDSRespProto m =
      match firstMissingPriority (observedPriorities m) with
      | some i => (EndpointsUpdate.zero, some (ParseErr.priorityMissing i (observedPriorities m)))
      | none => (⟨m.getDropOverloads.map parseDropPolicy, m.Endpoints.map mkLocality⟩, none) := by
  unfold parseEDSRespProto
  rw [parseLocalities_ok m.Endpoints [] [] hids]
  rfl

/-! ## Cluster resource type (cluster_resource_type.go)

The envelope `anypb.Any` is a type URL plus serialized bytes; it is the
value both `Decode` consumes and `ClusterUpdate.Raw` retains.
-/

/-- Wire envelope `anypb.Any`: a type URL and the serialized payload
bytes. -/
structure AnyProto where
  TypeURL : String
  Value : List Nat
deriving DecidableEq, Repr

/-- Model of `proto.Equal` on `*anypb.Any` receivers: nil pointers are
equal only to each other, and two non-nil messages are compared
structurally (for `Any`, the type URL and the payload bytes). -/
def protoEqual : Option AnyProto → Option AnyProto → Bool
  | none, none => true
  | some a, some b => decide (a = b)
  | _, _ => false

/-- Modelled from the spec: the operator bootstrap configuration consumed
by the security-config check; its contents are interpreted only by the
external `securityConfigValidator` collaborator, so it is kept as an
uninterpreted payload. The concrete type lives outside src/. -/
structure BootstrapConfig where
  Payload : String
deriving DecidableEq, Repr

/-- Modelled from the spec: a cluster's transport-security configuration,
interpreted only by the external validator; kept as an uninterpreted
payload. The concrete `xdsresource.SecurityConfig` lives outside src/. -/
structure SecurityConfig where
  Payload : String
deriving DecidableEq, Repr

/-- Modelled from the spec: `xdsresource.ClusterUpdate` carries the
cluster name, the nullable security configuration used by post-decode
validation, and `Raw`, the original wire envelope; its remaining fields
are opaque to this core and are not modelled. The concrete type lives
outside src/. -/
structure ClusterUpdate where
  ClusterName : String
  SecurityCfg : Option SecurityConfig
  Raw : Option AnyProto
deriving DecidableEq, Repr

/-- The zero value `ClusterUpdate\x7b\x7d` used as the validation-failure
placeholder by `Decode`. -/
def ClusterUpdate.zero : ClusterUpdate := ⟨"", none, none⟩

/-- Source type `ClusterResourceData`: wraps a `ClusterUpdate` by value. -/
structure ClusterResourceData where
  Resource : ClusterUpdate
deriving DecidableEq, Repr

/-- The type-erased `ResourceData` interface. Modelled from the spec as
the closed set of concrete variants in scope: `ClusterResourceData` and
the endpoints update. A Go interface value may also be nil; nil is
modelled as `none` at each use site (`Option ResourceData`). -/
inductive ResourceData where
  | cluster (data : ClusterResourceData)
  | endpoints (data : EndpointsUpdate)
deriving DecidableEq, Repr

/-- The `Raw()` capability of `ResourceData`: for cluster data it returns
the stored raw envelope (`c.Resource.Raw`). -/
def ResourceData.Raw : ResourceData → Option AnyProto
  | ResourceData.cluster c => c.Resource.Raw
  | ResourceData.endpoints _ => none

/-- Source method `ClusterResourceData.Equal`: true when both receiver and
argument are nil; false when exactly one is; otherwise
`proto.Equal(c.Resource.Raw, other.Raw())`. -/
def ClusterResourceData.Equal : Option ClusterResourceData → Option ResourceData → Bool
  | none, none => true
  | none, some _ => false
  | some _, none => false
  | some c, some other => protoEqual c.Resource.Raw other.Raw

/-- Modelled from the spec: the enum of resource kinds
(`xdsresource.ResourceType`); only the cluster arm is exercised here. The
concrete enum lives outside src/. -/
inductive ResourceType where
  | UnknownResource
  | ListenerResource
  | RouteConfigResource
  | ClusterResource
  | EndpointsResource
deriving DecidableEq, Repr

/-- The embedded `resourceTypeState` of a resource type: the fields set by
the `clusterType` singleton literal in src/. -/
structure resourceTypeState where
  typeURL : String
  typeEnum : ResourceType
  allResourcesRequiredInSotW : Bool
deriving DecidableEq, Repr

/-- The singleton `clusterType` literal from the source. -/
def clusterType : resourceTypeState :=
  ⟨"type.googleapis.com/envoy.config.cluster.v3.Cluster",
   ResourceType.ClusterResource, true⟩

/-- Modelled from the spec: `xdsresource.DecodeOptions` exposes the
bootstrap configuration passed to the security validator. The concrete
type lives outside src/. -/
structure DecodeOptions where
  BootstrapConfig : BootstrapConfig
deriving DecidableEq, Repr

/-- Source type `DecodeResult`: the resource name and the (type-erased)
decoded resource. -/
structure DecodeResult where
  Name : String
  Resource : ResourceData
deriving DecidableEq, Repr

/-- Source method `clusterResourceType.Decode`, translated line by line.
The two collaborators it calls live outside src/ and are taken as
parameters: `unmarshalClusterResource` (modelled from the spec: returns
the resource name, the decoded cluster and an error; the name is unset
exactly when protobuf deserialization fails, per the comment in the
source switch) and `securityConfigValidator` (modelled from the spec: an
external check of the cluster's security configuration against the
bootstrap configuration, returning an error on rejection). -/
def clusterDecode
    (unmarshalClusterResource : AnyProto → String × ClusterUpdate × Option String)
    (securityConfigValidator : BootstrapConfig → Option SecurityConfig → Option String)
    (opts : DecodeOptions) (resource : AnyProto) : Option DecodeResult × Option String :=
  let r := unmarshalClusterResource resource
  let name := r.1
  let cluster := r.2.1
  let err := r.2.2
  if name = "" then
    (none, err)
  else
    match err with
    | some e =>
      (some ⟨name, ResourceData.cluster ⟨ClusterUpdate.zero⟩⟩, some e)
    | none =>
      match securityConfigValidator opts.BootstrapConfig cluster.SecurityCfg with
      | some e =>
        (some ⟨name, ResourceData.cluster ⟨ClusterUpdate.zero⟩⟩, some e)
      | none =>
        (some ⟨name, ResourceData.cluster ⟨cluster⟩⟩, none)

/-- Source method `delegatingClusterWatcher.OnUpdate`: the narrowing
`data.(*ClusterResourceData)` is a runtime type assertion; `some` is the
value handed to the typed watcher, `none` models the assertion panicking
on data of another resource kind. -/
def delegatingOnUpdate : ResourceData → Option ClusterResourceData
  | ResourceData.cluster c => some c
  | _ => none

/-! ## Helper lemmas about the cluster resource type -/

/-- Structural proto equality is reflexive. -/
theorem protoEqual_refl (x : Option AnyProto) : protoEqual x x = true := by
  cases x with
  | none => rfl
  | some a => simp [protoEqual]

/-- Every result `Decode` returns (with or without an error) wraps its
resource in the cluster variant. -/
theorem clusterDecode_resource_is_cluster
    (u : AnyProto → String × ClusterUpdate × Option String)
    (v : BootstrapConfig → Option SecurityConfig → Option String)
    (o : DecodeOptions) (env : AnyProto) (r : DecodeResult) (e : Option String)
    (h : clusterDecode u v o env = (some r, e)) :
    ∃ c : ClusterResourceData, r.Resource = ResourceData.cluster c := by
  by_cases hn : (u env).1 = ""
  · simp [clusterDecode, hn] at h
  · rcases he : (u env).2.2 with _ | e₁
    · rcases hv : v o.BootstrapConfig (u env).2.1.SecurityCfg with _ | e₂
      · simp [clusterDecode, hn, he, hv] at h
        exact ⟨⟨(u env).2.1⟩, by rw [← h.1]⟩
      · simp [clusterDecode, hn, he, hv] at h
        exact ⟨⟨ClusterUpdate.zero⟩, by rw [← h.1]⟩
    · simp [clusterDecode, hn, he] at h
      exact ⟨⟨ClusterUpdate.zero⟩, by rw [← h.1]⟩

/-- Every result `Decode` returns together with a non-nil error wraps the
zero `ClusterUpdate` placeholder. -/
theorem clusterDecode_failure_resource
    (u : AnyProto → String × ClusterUpdate × Option String)
    (v : BootstrapConfig → Option SecurityConfig → Option String)
    (o : DecodeOptions) (env : AnyProto) (r : DecodeResult) (e : String)
    (h : clusterDecode u v o env = (some r, some e)) :
    r.Resource = ResourceData.cluster ⟨ClusterUpdate.zero⟩ := by
  by_cases hn : (u env).1 = ""
  · simp [clusterDecode, hn] at h
  · rcases he : (u env).2.2 with _ | e₁
    · rcases hv : v o.BootstrapConfig (u env).2.1.SecurityCfg with _ | e₂
      · simp [clusterDecode, hn, he, hv] at h
      · simp [clusterDecode, hn, he, hv] at h
        rw [← h.1]
    · simp [clusterDecode, hn, he] at h
      rw [← h.1]

/-- Every result `Decode` returns with a nil error carries the decoded
cluster produced by unmarshalling. -/
theorem clusterDecode_success_resource
    (u : AnyProto → String × ClusterUpdate × Option String)
    (v : BootstrapConfig → Option SecurityConfig → Option String)
    (o : DecodeOptions) (env : AnyProto) (r : DecodeResult)
    (h : clusterDecode u v o env = (some r, none)) :
    r.Resource = ResourceData.cluster ⟨(u env).2.1⟩ := by
  by_cases hn : (u env).1 = ""
  · simp [clusterDecode, hn] at h
  · rcases he : (u env).2.2 with _ | e₁
    · rcases hv : v o.BootstrapConfig (u env).2.1.SecurityCfg with _ | e₂
      · simp [clusterDecode, hn, he, hv] at h
        rw [← h]
      · simp [clusterDecode, hn, he, hv] at h
    · simp [clusterDecode, hn, he] at h

/-! ## Shared concrete example values (used by witnesses) -/

/-- A concrete wire envelope. -/
def envEx : AnyProto :=
  ⟨"type.googleapis.com/envoy.config.cluster.v3.Cluster", [8, 1]⟩

/-- Concrete decode options. -/
def optsEx : DecodeOptions := ⟨⟨"bootstrap"⟩⟩

/-- A concrete decoded cluster carrying its raw envelope. -/
def clusterEx : ClusterUpdate := ⟨"cluster-a", none, some envEx⟩

/-- A concrete unmarshaller that succeeds with `clusterEx`. -/
def unmarshalOk : AnyProto → String × ClusterUpdate × Option String :=
  fun _ => ("cluster-a", clusterEx, none)

/-- A concrete unmarshaller whose deserialization fails: no name. -/
def unmarshalBad : AnyProto → String × ClusterUpdate × Option String :=
  fun _ => ("", ClusterUpdate.zero, some "proto unmarshal failure")

/-- A concrete validator that accepts everything. -/
def validatorOk : BootstrapConfig → Option SecurityConfig → Option String :=
  fun _ _ => none

/-- A concrete validator that rejects everything. -/
def validatorReject : BootstrapConfig → Option SecurityConfig → Option String :=
  fun _ _ => some "security config rejected"

/-! ## Claim theorems: cluster resource type -/

/-- Claim C1: `Decode` returns `(nil, error)` with no name when protobuf
deserialization fails; a populated name together with a zero-value
`ClusterResourceData` placeholder and a non-nil error when resource
validation during unmarshalling or the security-config check fails; and
the name, the decoded cluster and a nil error on full success. -/
theorem decode_three_way_contract
    (u : AnyProto → String × ClusterUpdate × Option String)
    (v : BootstrapConfig → Option SecurityConfig → Option String)
    (opts : DecodeOptions) (resource : AnyProto) :
    (∀ c e, u resource = ("", c, some e) →
      clusterDecode u v opts resource = (none, some e))
    ∧ (∀ n c e, n ≠ "" → u resource = (n, c, some e) →
      clusterDecode u v opts resource =
        (some ⟨n, ResourceData.cluster ⟨ClusterUpdate.zero⟩⟩, some e))
    ∧ (∀ n c, n ≠ "" → u resource = (n, c, none) →
      (∀ e, v opts.BootstrapConfig c.SecurityCfg = some e →
        clusterDecode u v opts resource =
          (some ⟨n, ResourceData.cluster ⟨ClusterUpdate.zero⟩⟩, some e))
      ∧ (v opts.BootstrapConfig c.SecurityCfg = none →
        clusterDecode u v opts resource =
          (some ⟨n, ResourceData.cluster ⟨c⟩⟩, none))) := by
  refine ⟨fun c e hu => ?_, fun n c e hn hu => ?_, fun n c hn hu => ⟨fun e hv => ?_, fun hv => ?_⟩⟩
  · simp [clusterDecode, hu]
  · simp [clusterDecode, hu, hn]
  · simp [clusterDecode, hu, hn, hv]
  · simp [clusterDecode, hu, hn, hv]

/-- Witness for C1: the deserialization-failure branch evaluated at a
concrete envelope. -/
theorem decode_three_way_contract_w :
    clusterDecode unmarshalBad validatorOk optsEx envEx =
      (none, some "proto unmarshal failure") :=
  (decode_three_way_contract unmarshalBad validatorOk optsEx envEx).1
    ClusterUpdate.zero "proto unmarshal failure" rfl

/-- Claim C4: `Equal` is true on two nils, false when exactly one side is
nil, and otherwise compares exactly the stored raw wire envelopes under
structural proto-message equality, never the decoded field structure. -/
theorem equal_is_raw_envelope_equality :
    (ClusterResourceData.Equal none none = true)
    ∧ (∀ o : ResourceData, ClusterResourceData.Equal none (some o) = false)
    ∧ (∀ c : ClusterResourceData, ClusterResourceData.Equal (some c) none = false)
    ∧ (∀ (c : ClusterResourceData) (o : ResourceData),
        ClusterResourceData.Equal (some c) (some o) = protoEqual c.Resource.Raw o.Raw) :=
  ⟨rfl, fun _ => rfl, fun _ => rfl, fun _ _ => rfl⟩

/-- Witness for C4: the one-sided-nil case at a concrete value. -/
theorem equal_is_raw_envelope_equality_w :
    ClusterResourceData.Equal (some ⟨clusterEx⟩) none = false :=
  equal_is_raw_envelope_equality.2.2.1 ⟨clusterEx⟩

/-- Claim C5: `Decode` is deterministic; on byte-identical valid envelopes
and identical options, the two results carry `Equal` resource data. -/
theorem decode_deterministic_equal
    (u : AnyProto → String × ClusterUpdate × Option String)
    (v : BootstrapConfig → Option SecurityConfig → Option String)
    (opts : DecodeOptions) (env1 env2 : AnyProto) (hb : env1 = env2)
    (r1 r2 : DecodeResult)
    (h1 : clusterDecode u v opts env1 = (some r1, none))
    (h2 : clusterDecode u v opts env2 = (some r2, none)) :
    ClusterResourceData.Equal (delegatingOnUpdate r1.Resource) (some r2.Resource) = true := by
  subst hb
  have hr1 := clusterDecode_success_resource u v opts env1 r1 h1
  have hr2 := clusterDecode_success_resource u v opts env1 r2 h2
  rw [hr1, hr2]
  simp [delegatingOnUpdate, ClusterResourceData.Equal, ResourceData.Raw, protoEqual_refl]

/-- Witness for C5: two decodes of the same concrete envelope compare
`Equal`. -/
theorem decode_deterministic_equal_w :
    ClusterResourceData.Equal
      (delegatingOnUpdate (ResourceData.cluster ⟨clusterEx⟩))
      (some (ResourceData.cluster ⟨clusterEx⟩)) = true :=
  decode_deterministic_equal unmarshalOk validatorOk optsEx envEx envEx rfl
    ⟨"cluster-a", ResourceData.cluster ⟨clusterEx⟩⟩
    ⟨"cluster-a", ResourceData.cluster ⟨clusterEx⟩⟩ rfl rfl

/-- Counterexample to C7 as stated: the narrowing inside
`delegatingClusterWatcher.OnUpdate` is a runtime type assertion, and it
fails (panics) on a `ResourceData` value of another resource kind, which
the type-erased `OnUpdate` signature can receive. -/
theorem narrowing_fails_on_foreign_kind :
    delegatingOnUpdate (ResourceData.endpoints EndpointsUpdate.zero) = none := rfl

/-- Amended C7: the narrowing is a runtime type assertion, not safe by
construction over all receivable values; it does succeed for every value
produced by this resource kind's own `Decode`, since those always wrap
the cluster variant. -/
theorem narrowing_safe_for_decode_output
    (u : AnyProto → String × ClusterUpdate × Option String)
    (v : BootstrapConfig → Option SecurityConfig → Option String)
    (o : DecodeOptions) (env : AnyProto) (r : DecodeResult) (e : Option String)
    (h : clusterDecode u v o env = (some r, e)) :
    (delegatingOnUpdate r.Resource).isSome = true := by
  obtain ⟨c, hc⟩ := clusterDecode_resource_is_cluster u v o env r e h
  rw [hc]
  rfl

/-- Witness for amended C7: narrowing succeeds on a concrete decode
output. -/
theorem narrowing_safe_for_decode_output_w :
    (delegatingOnUpdate (ResourceData.cluster ⟨clusterEx⟩)).isSome = true :=
  narrowing_safe_for_decode_output unmarshalOk validatorOk optsEx envEx
    ⟨"cluster-a", ResourceData.cluster ⟨clusterEx⟩⟩ none rfl

/-- Claim C9: the cluster resource type's protocol type identifier is the
exact constant string, fixed in the singleton descriptor. -/
theorem clusterType_typeURL :
    clusterType.typeURL = "type.googleapis.com/envoy.config.cluster.v3.Cluster" := rfl

/-- Claim C10: any two named-failure results of `Decode` wrap the zero
`ClusterUpdate` placeholder, whose raw envelope is nil, so they are
`Equal` to each other regardless of which resources or errors produced
them, because `Equal` consults only the stored raw envelope. -/
theorem validation_placeholders_all_equal
    (u1 u2 : AnyProto → String × ClusterUpdate × Option String)
    (v1 v2 : BootstrapConfig → Option SecurityConfig → Option String)
    (o1 o2 : DecodeOptions) (env1 env2 : AnyProto)
    (r1 r2 : DecodeResult) (e1 e2 : String)
    (h1 : clusterDecode u1 v1 o1 env1 = (some r1, some e1))
    (h2 : clusterDecode u2 v2 o2 env2 = (some r2, some e2)) :
    ClusterResourceData.Equal (delegatingOnUpdate r1.Resource) (some r2.Resource) = true := by
  have hr1 := clusterDecode_failure_resource u1 v1 o1 env1 r1 e1 h1
  have hr2 := clusterDecode_failure_resource u2 v2 o2 env2 r2 e2 h2
  rw [hr1, hr2]
  rfl

/-- Witness for C10: a security-rejection placeholder and an
unmarshal-validation placeholder from different envelopes compare
`Equal`. -/
theorem validation_placeholders_all_equal_w :
    ClusterResourceData.Equal
      (delegatingOnUpdate (ResourceData.cluster ⟨ClusterUpdate.zero⟩))
      (some (ResourceData.cluster ⟨ClusterUpdate.zero⟩)) = true :=
  validation_placeholders_all_equal unmarshalOk unmarshalOk
    validatorReject validatorReject optsEx optsEx envEx ⟨"other", [9]⟩
    ⟨"cluster-a", ResourceData.cluster ⟨ClusterUpdate.zero⟩⟩
    ⟨"cluster-a", ResourceData.cluster ⟨ClusterUpdate.zero⟩⟩
    "security config rejected" "security config rejected" rfl rfl

/-! ## Claim theorems: EDS parser -/

/-- A concrete locality entry carrying an identifier, at the given
priority. -/
def locEx (p : Nat) : LocalityEndpoints :=
  ⟨some ⟨"region-a", "zone-b", "subzone-c"⟩,
   [⟨1, some ⟨some ⟨some ⟨"10.0.0.1", 8080⟩⟩⟩, some 7⟩], some 3, p⟩

/-- A concrete locality entry without an identifier. -/
def locNoID : LocalityEndpoints := ⟨none, [], none, 5⟩

/-- A concrete assignment with a priority gap (priorities 0 and 2). -/
def claGap : ClusterLoadAssignment := ⟨none, [locEx 0, locEx 2]⟩

/-- A concrete assignment whose second locality has no identifier. -/
def claNoID : ClusterLoadAssignment := ⟨none, [locEx 0, locNoID]⟩

/-- A concrete empty assignment. -/
def claEmpty : ClusterLoadAssignment := ⟨none, []⟩

/-- Claim C2: under present locality identifiers, the parse returns a nil
error exactly when the observed distinct priorities are the set
0, 1, …, N-1 for N their count (duplicates being irrelevant beyond the
distinct set); and when the value i in that range is the first one
missing, the parse returns the zero update with an error carrying i and
the full observed set. -/
theorem eds_priority_contiguity (m : ClusterLoadAssignment)
    (hids : ∀ le ∈ m.Endpoints, le.Locality.isSome = true) :
    ((parseEDSRespProto m).2 = none ↔
      ∀ p, p ∈ observedPriorities m ↔ p < (observedPriorities m).length)
    ∧ (∀ i, firstMissingPriority (observedPriorities m) = some i →
        parseEDSRespProto m =
          (EndpointsUpdate.zero, some (ParseErr.priorityMissing i (observedPriorities m)))) := by
  have hp := parseEDSRespProto_of_ids m hids
  have hnd : (observedPriorities m).Nodup := observedPriorities_nodup m
  constructor
  · constructor
    · intro hsucc
      rcases hfm : firstMissingPriority (observedPriorities m) with _ | i
      · have hall := (firstMissingPriority_eq_none _).mp hfm
        intro p
        exact ⟨fun hmem => mem_lt_length_of_contiguous _ hnd hall p hmem,
               fun hlt => hall p hlt⟩
      · rw [hp, hfm] at hsucc
        simp at hsucc
    · intro hiff
      have hall : ∀ i < (observedPriorities m).length, i ∈ observedPriorities m :=
        fun i hi => (hiff i).mpr hi
      rw [hp, (firstMissingPriority_eq_none _).mpr hall]
  · intro i hfm
    rw [hp, hfm]

/-- Witness for C2: the gap assignment (priorities 0 and 2) fails naming
missing priority 1 and the observed set. -/
theorem eds_priority_contiguity_w :
    parseEDSRespProto claGap =
      (EndpointsUpdate.zero, some (ParseErr.priorityMissing 1 (observedPriorities claGap))) :=
  (eds_priority_contiguity claGap (by decide)).2 1 (by decide)

/-- Claim C3: a locality entry without an identifier aborts the whole
parse at the first such entry, producing the zero update and an error
carrying that entry's full contents. -/
theorem eds_missing_locality_id_aborts (m : ClusterLoadAssignment)
    (le₀ : LocalityEndpoints)
    (h : m.Endpoints.find? (fun le => le.Locality.isNone) = some le₀) :
    parseEDSRespProto m = (EndpointsUpdate.zero, some (ParseErr.localityWithoutID le₀)) := by
  unfold parseEDSRespProto
  rw [parseLocalities_error m.Endpoints [] [] le₀ h]

/-- Witness for C3: the assignment whose second locality lacks an
identifier aborts naming exactly that locality. -/
theorem eds_missing_locality_id_aborts_w :
    parseEDSRespProto claNoID =
      (EndpointsUpdate.zero, some (ParseErr.localityWithoutID locNoID)) :=
  eds_missing_locality_id_aborts claNoID locNoID (by decide)

/-- Claim C6: `parseDropPolicy` copies category and numerator unchanged
and maps the denominator unit tag exactly as HUNDRED to 100, TEN_THOUSAND
to 10000, MILLION to 1000000; an unrecognized tag yields denominator 0,
never a silent nonzero value. -/
theorem drop_policy_denominator_mapping (dp : DropOverload) :
    (parseDropPolicy dp).Category = dp.Category
    ∧ (parseDropPolicy dp).Numerator = getNumerator dp.DropPercentage
    ∧ (getDenominator dp.DropPercentage = FractionalPercent_HUNDRED →
        (parseDropPolicy dp).Denominator = 100)
    ∧ (getDenominator dp.DropPercentage = FractionalPercent_TEN_THOUSAND →
        (parseDropPolicy dp).Denominator = 10000)
    ∧ (getDenominator dp.DropPercentage = FractionalPercent_MILLION →
        (parseDropPolicy dp).Denominator = 1000000)
    ∧ (getDenominator dp.DropPercentage ≠ FractionalPercent_HUNDRED →
       getDenominator dp.DropPercentage ≠ FractionalPercent_TEN_THOUSAND →
       getDenominator dp.DropPercentage ≠ FractionalPercent_MILLION →
        (parseDropPolicy dp).Denominator = 0) := by
  refine ⟨rfl, rfl, fun h => ?_, fun h => ?_, fun h => ?_, fun h1 h2 h3 => ?_⟩
  · simp [parseDropPolicy, h, FractionalPercent_HUNDRED,
      FractionalPercent_TEN_THOUSAND, FractionalPercent_MILLION]
  · simp [parseDropPolicy, h, FractionalPercent_HUNDRED,
      FractionalPercent_TEN_THOUSAND, FractionalPercent_MILLION]
  · simp [parseDropPolicy, h, FractionalPercent_HUNDRED,
      FractionalPercent_TEN_THOUSAND, FractionalPercent_MILLION]
  · simp [parseDropPolicy, h1, h2, h3]

/-- Witness for C6: a HUNDRED drop policy maps to denominator 100. -/
theorem drop_policy_denominator_mapping_w :
    (parseDropPolicy ⟨"lb", some ⟨50, FractionalPercent_HUNDRED⟩⟩).Denominator = 100 :=
  (drop_policy_denominator_mapping ⟨"lb", some ⟨50, FractionalPercent_HUNDRED⟩⟩).2.2.1 rfl

/-- Claim C8: on success the parse preserves source order and shape: one
drop config per source drop policy in order, one locality per source
entry in order (each carrying identifier, weight, priority and one
endpoint per member of its sub-list via `parseEndpoints`); an endpoint is
the formatted host:port address, weight and cast health status; and the
empty assignment parses to the empty update with a nil error. -/
theorem eds_success_shape (m : ClusterLoadAssignment) :
    ((parseEDSRespProto m).2 = none →
      (parseEDSRespProto m).1.Drops = m.getDropOverloads.map parseDropPolicy
      ∧ (parseEDSRespProto m).1.Localities = m.Endpoints.map mkLocality
      ∧ ∀ le ∈ m.Endpoints, le.Locality.isSome = true)
    ∧ (∀ lbs : List LbEndpoint, parseEndpoints lbs =
        lbs.map (fun lb =>
          ⟨parseAddress lb.getSocketAddress, lb.HealthStatus,
           lb.LoadBalancingWeight.getD 0⟩))
    ∧ (m.Endpoints = [] → m.getDropOverloads = [] →
        parseEDSRespProto m = (EndpointsUpdate.zero, none)) := by
  refine ⟨fun hsucc => ?_, fun lbs => ?_, fun hE hD => ?_⟩
  · have hids : ∀ le ∈ m.Endpoints, le.Locality.isSome = true := by
      rcases hpl : parseLocalities m.Endpoints [] [] with e | ⟨locs, ps⟩
      · unfold parseEDSRespProto at hsucc
        rw [hpl] at hsucc
        simp at hsucc
      · exact parseLocalities_ok_ids m.Endpoints [] [] locs ps hpl
    have hp := parseEDSRespProto_of_ids m hids
    rcases hfm : firstMissingPriority (observedPriorities m) with _ | i
    · rw [hp, hfm]
      exact ⟨rfl, rfl, hids⟩
    · rw [hp, hfm] at hsucc
      simp at hsucc
  · induction lbs with
    | nil => rfl
    | cons lb rest ih => simp [parseEndpoints, ih]
  · have hids : ∀ le ∈ m.Endpoints, le.Locality.isSome = true := by
      rw [hE]
      intro le hle
      simp at hle
    rw [parseEDSRespProto_of_ids m hids]
    simp [observedPriorities, hE, hD, firstMissingPriority, EndpointsUpdate.zero]

/-- Witness for C8: the empty assignment parses to the empty update. -/
theorem eds_success_shape_w :
    parseEDSRespProto claEmpty = (EndpointsUpdate.zero, none) :=
  (eds_success_shape claEmpty).2.2 rfl rfl

end GrpcXds
